import Mathlib

/-! # refl1d: the vector binding glue of `refl1d/lib/methods.h`

The header defines the glue through which every native entry point obtains
its array arguments: `DECLARE_VECTORS`, `FREE_VECTORS`, `INVECTOR` and
`OUTVECTOR`, in two variants selected by a preprocessor guard.

The glue is embedded as functions on the state of the enclosing C function
(`Frame`).  A use of `INVECTOR`/`OUTVECTOR` either falls through with the
variables `buf` and `len` assigned, or executes `return NULL`; both outcomes
are values of `Flow`.  The CPython calls the glue makes are not part of the
repository: they are parameters (`PyRuntime`), and every call is recorded in
the frame so that statements about which buffers are acquired, with which
access, and released, are statements about the recorded calls.
-/

namespace Refl1d

/-! ## The CPython interface the glue is written against -/

/-- A Python object handle (`PyObject*`). -/
abbrev PyObject := Nat

/-- The `PyBUF_SIMPLE` request flag of CPython's `object.h`. -/
def PyBUF_SIMPLE : Nat := 0

/-- The `PyBUF_WRITABLE` request flag of CPython's `object.h`. -/
def PyBUF_WRITABLE : Nat := 1

/-- The `PyBUF_FORMAT` request flag of CPython's `object.h`. -/
def PyBUF_FORMAT : Nat := 4

/-- What `PyObject_AsReadBuffer` / `PyObject_AsWriteBuffer` hand back: the
return code, and the address and byte length stored through the two
out-pointers.  A byte length is a non-negative `Py_ssize_t`. -/
structure BufferReply where
  err : Int
  buf : Nat
  len : Nat
deriving DecidableEq, Repr

/-- The fields of a `Py_buffer` view that the glue reads. -/
structure Py_buffer where
  buf : Nat
  len : Nat
  itemsize : Nat
deriving DecidableEq, Repr

/-- What `PyObject_GetBuffer` hands back: the return code and the view it
filled in. -/
structure ViewReply where
  err : Int
  view : Py_buffer
deriving DecidableEq, Repr

/-- The CPython calls used by the glue.  `PyObject_GetBuffer` receives the
object and the request flags. -/
structure PyRuntime where
  PyObject_AsReadBuffer : PyObject → BufferReply
  PyObject_AsWriteBuffer : PyObject → BufferReply
  PyObject_GetBuffer : PyObject → Nat → ViewReply

/-- The two messages the glue passes to `PyErr_SetString(PyExc_TypeError, _)`:
"not enough vectors declared" and "wrong numeric type for vector". -/
inductive TypeErrorText
  | notEnoughVectorsDeclared
  | wrongNumericTypeForVector
deriving DecidableEq, Repr

/-- One call into CPython made by the glue.  `GetBuffer` records the view slot
`&VEC_views[slot]` it was given and the code it returned; `Release` records
the slot whose view was passed to `PyBuffer_Release`. -/
inductive ApiCall
  | AsReadBuffer (obj : PyObject)
  | AsWriteBuffer (obj : PyObject)
  | GetBuffer (obj : PyObject) (flags : Nat) (slot : Nat) (err : Int)
  | Release (slot : Nat)
  | SetString (msg : TypeErrorText)
deriving DecidableEq, Repr

/-! ## State of the enclosing function -/

/-- The pair of variables `buf`, `len` a vector use assigns. -/
structure Binding where
  buf : Nat
  len : Nat
deriving DecidableEq, Repr

/-- State of the C function that uses the glue: the variables introduced by
`DECLARE_VECTORS` (meaningful in the buffer-protocol variant only), the
`buf`/`len` pairs assigned so far, in order, and the CPython calls made so
far, in order. -/
structure Frame where
  VEC_views : List Py_buffer
  VEC_current : Int
  VEC_maximum : Int
  bound : List Binding
  calls : List ApiCall
deriving DecidableEq, Repr

/-- Outcome of a piece of glue inside the enclosing function: control falls
through (`next`) or the function has executed `return NULL` (`returnedNULL`),
each with the frame at that point. -/
inductive Flow
  | next (f : Frame)
  | returnedNULL (f : Frame)
deriving DecidableEq, Repr

/-- The frame of a function on entry, before any glue has run. -/
def Frame.entry : Frame :=
  { VEC_views := [], VEC_current := 0, VEC_maximum := 0, bound := [], calls := [] }

/-- Record one CPython call. -/
def Frame.call (f : Frame) (c : ApiCall) : Frame :=
  { f with calls := f.calls ++ [c] }

/-- Assign the variables `buf` and `len` of a vector use. -/
def Frame.bind (f : Frame) (buf len : Nat) : Frame :=
  { f with bound := f.bound ++ [{ buf := buf, len := len }] }

/-- Whether a flow is a `return NULL`. -/
def Flow.isNULL : Flow → Bool
  | .next _ => false
  | .returnedNULL _ => true

/-- The frame a flow carries. -/
def Flow.frame : Flow → Frame
  | .next f => f
  | .returnedNULL f => f

/-! ## The preprocessor guard (methods.h line 31) -/

/-- The condition `0 && (PY_VERSION_HEX > 0x03000000) && !defined(Py_LIMITED_API)`. -/
def guard (PY_VERSION_HEX : Nat) (Py_LIMITED_API_defined : Bool) : Bool :=
  false && decide (PY_VERSION_HEX > 0x03000000) && !Py_LIMITED_API_defined

/-! ## Buffer-protocol variant (methods.h lines 33-72) -/

namespace BufferProtocol

/-- `DECLARE_VECTORS(VEC_n)`: an array of `VEC_n` views, `VEC_current = 0`,
`VEC_maximum = VEC_n`. -/
def DECLARE_VECTORS (VEC_n : Nat) (f : Frame) : Frame :=
  { f with
    VEC_views := List.replicate VEC_n { buf := 0, len := 0, itemsize := 0 }
    VEC_current := 0
    VEC_maximum := VEC_n }

/-- The loop `while (VEC_k < VEC_current) PyBuffer_Release(&VEC_views[VEC_k++]);`
with the given number of iterations allowed. -/
def freeLoop : Nat → Int → Frame → Frame
  | 0, _, f => f
  | fuel + 1, VEC_k, f =>
    if VEC_k < f.VEC_current then
      freeLoop fuel (VEC_k + 1) (f.call (.Release VEC_k.toNat))
    else f

/-- `FREE_VECTORS()`: the release loop started at `VEC_k = 0`.  The loop runs
at most `VEC_current` times, which is the number of iterations allowed. -/
def FREE_VECTORS (f : Frame) : Frame :=
  freeLoop f.VEC_current.toNat 0 f

/-- `_VECTOR(VEC_obj, VEC_buf, VEC_len, VEC_flags)`; `size` is
`sizeof(*VEC_buf)`. -/
def _VECTOR (rt : PyRuntime) (VEC_obj : PyObject) (size : Nat) (VEC_flags : Nat)
    (f : Frame) : Flow :=
  if f.VEC_current ≥ f.VEC_maximum then
    .returnedNULL (FREE_VECTORS (f.call (.SetString .notEnoughVectorsDeclared)))
  else
    let r := rt.PyObject_GetBuffer VEC_obj VEC_flags
    let f1 := f.call (.GetBuffer VEC_obj VEC_flags f.VEC_current.toNat r.err)
    if r.err < 0 then
      .returnedNULL (FREE_VECTORS f1)
    else
      let f2 := { f1 with
        VEC_views := f1.VEC_views.set f1.VEC_current.toNat r.view
        VEC_current := f1.VEC_current + 1 }
      if size ≠ r.view.itemsize then
        .returnedNULL (FREE_VECTORS (f2.call (.SetString .wrongNumericTypeForVector)))
      else
        .next (f2.bind r.view.buf (r.view.len / size))

/-- `INVECTOR(obj, buf, len)` of the buffer-protocol variant. -/
def INVECTOR (rt : PyRuntime) (obj : PyObject) (size : Nat) (f : Frame) : Flow :=
  _VECTOR rt obj size (PyBUF_SIMPLE ||| PyBUF_FORMAT) f

/-- `OUTVECTOR(obj, buf, len)` of the buffer-protocol variant. -/
def OUTVECTOR (rt : PyRuntime) (obj : PyObject) (size : Nat) (f : Frame) : Flow :=
  _VECTOR rt obj size (PyBUF_WRITABLE ||| PyBUF_FORMAT) f

end BufferProtocol

/-! ## Fallback variant (methods.h lines 76-91) -/

namespace Fallback

/-- `DECLARE_VECTORS(n)`, defined as `do {} while(0)`. -/
def DECLARE_VECTORS (_n : Nat) (f : Frame) : Frame := f

/-- `FREE_VECTORS()`, defined as `do {} while(0)`. -/
def FREE_VECTORS (f : Frame) : Frame := f

/-- `INVECTOR(obj, buf, len)`; `size` is `sizeof(*buf)`. -/
def INVECTOR (rt : PyRuntime) (obj : PyObject) (size : Nat) (f : Frame) : Flow :=
  let r := rt.PyObject_AsReadBuffer obj
  let f1 := f.call (.AsReadBuffer obj)
  if r.err < 0 then .returnedNULL f1
  else .next (f1.bind r.buf (r.len / size))

/-- `OUTVECTOR(obj, buf, len)`; `size` is `sizeof(*buf)`. -/
def OUTVECTOR (rt : PyRuntime) (obj : PyObject) (size : Nat) (f : Frame) : Flow :=
  let r := rt.PyObject_AsWriteBuffer obj
  let f1 := f.call (.AsWriteBuffer obj)
  if r.err < 0 then .returnedNULL f1
  else .next (f1.bind r.buf (r.len / size))

end Fallback

/-! ## The glue as compiled -/

/-- `DECLARE_VECTORS` as selected by the guard. -/
def DECLARE_VECTORS (PY_VERSION_HEX : Nat) (limited : Bool) (n : Nat) (f : Frame) : Frame :=
  if guard PY_VERSION_HEX limited then BufferProtocol.DECLARE_VECTORS n f
  else Fallback.DECLARE_VECTORS n f

/-- `FREE_VECTORS` as selected by the guard. -/
def FREE_VECTORS (PY_VERSION_HEX : Nat) (limited : Bool) (f : Frame) : Frame :=
  if guard PY_VERSION_HEX limited then BufferProtocol.FREE_VECTORS f
  else Fallback.FREE_VECTORS f

/-- `INVECTOR` as selected by the guard. -/
def INVECTOR (PY_VERSION_HEX : Nat) (limited : Bool) (rt : PyRuntime) (obj : PyObject)
    (size : Nat) (f : Frame) : Flow :=
  if guard PY_VERSION_HEX limited then BufferProtocol.INVECTOR rt obj size f
  else Fallback.INVECTOR rt obj size f

/-- `OUTVECTOR` as selected by the guard. -/
def OUTVECTOR (PY_VERSION_HEX : Nat) (limited : Bool) (rt : PyRuntime) (obj : PyObject)
    (size : Nat) (f : Frame) : Flow :=
  if guard PY_VERSION_HEX limited then BufferProtocol.OUTVECTOR rt obj size f
  else Fallback.OUTVECTOR rt obj size f

/-! ## Sequences of vector uses -/

/-- One vector use in the enclosing function: `OUTVECTOR` when `out` is set,
`INVECTOR` otherwise, on object `obj` with `sizeof(*buf) = size`. -/
structure VectorUse where
  out : Bool
  obj : PyObject
  size : Nat
deriving DecidableEq, Repr

/-- Run vector uses in program order with the given expansion of one use; a
`return NULL` ends the function. -/
def runUses {υ : Type} (step : υ → Frame → Flow) : List υ → Frame → Flow
  | [], f => .next f
  | u :: us, f =>
    match step u f with
    | .next f1 => runUses step us f1
    | .returnedNULL f1 => .returnedNULL f1

/-- One use, expanded by the glue as compiled. -/
def useCompiled (PY_VERSION_HEX : Nat) (limited : Bool) (rt : PyRuntime)
    (u : VectorUse) (f : Frame) : Flow :=
  if u.out then OUTVECTOR PY_VERSION_HEX limited rt u.obj u.size f
  else INVECTOR PY_VERSION_HEX limited rt u.obj u.size f

/-- A direct use of `_VECTOR` in the enclosing function, with arbitrary
request flags; `size` is `sizeof(*VEC_buf)`. -/
structure RawUse where
  obj : PyObject
  size : Nat
  flags : Nat
deriving DecidableEq, Repr

/-- One direct use of `_VECTOR`. -/
def useRaw (rt : PyRuntime) (u : RawUse) (f : Frame) : Flow :=
  BufferProtocol._VECTOR rt u.obj u.size u.flags f

/-- One use, expanded by the buffer-protocol variant. -/
def useBufferProtocol (rt : PyRuntime) (u : VectorUse) (f : Frame) : Flow :=
  if u.out then BufferProtocol.OUTVECTOR rt u.obj u.size f
  else BufferProtocol.INVECTOR rt u.obj u.size f

/-- The reply a use receives from the legacy buffer call it makes in the
fallback variant. -/
def legacyReply (rt : PyRuntime) (u : VectorUse) : BufferReply :=
  if u.out then rt.PyObject_AsWriteBuffer u.obj else rt.PyObject_AsReadBuffer u.obj

/-- The legacy buffer call a use makes in the fallback variant. -/
def legacyCall (u : VectorUse) : ApiCall :=
  if u.out then .AsWriteBuffer u.obj else .AsReadBuffer u.obj

/-- The binding a use assigns in the fallback variant when its call succeeds. -/
def legacyBinding (rt : PyRuntime) (u : VectorUse) : Binding :=
  { buf := (legacyReply rt u).buf, len := (legacyReply rt u).len / u.size }

/-! ## Bookkeeping of views over the recorded calls -/

/-- Views in hand: `held` lists the slots whose `PyObject_GetBuffer` succeeded
and that have not been released since, oldest first; `stray` lists the slots
passed to `PyBuffer_Release` while not held (never acquired, acquisition
failed, or already released). -/
structure Ledger where
  held : List Nat
  stray : List Nat
deriving DecidableEq, Repr

/-- Effect of one recorded call on the ledger. -/
def Ledger.step (l : Ledger) : ApiCall → Ledger
  | .GetBuffer _ _ slot err => if err < 0 then l else { l with held := l.held ++ [slot] }
  | .Release slot =>
    if slot ∈ l.held then { l with held := l.held.erase slot }
    else { l with stray := l.stray ++ [slot] }
  | _ => l

/-- The ledger after a sequence of recorded calls. -/
def ledger (cs : List ApiCall) : Ledger :=
  cs.foldl Ledger.step { held := [], stray := [] }

/-- The slots released by a sequence of recorded calls, in order. -/
def releases : List ApiCall → List Nat
  | [] => []
  | .Release slot :: cs => slot :: releases cs
  | _ :: cs => releases cs

/-- The slots whose `PyObject_GetBuffer` succeeded, in order. -/
def acquired : List ApiCall → List Nat
  | [] => []
  | .GetBuffer _ _ slot err :: cs => if err < 0 then acquired cs else slot :: acquired cs
  | _ :: cs => acquired cs

/-- The bookkeeping of the buffer-protocol variant while the function is
running: `VEC_maximum` is the declared count, `VEC_current` lies between 0 and
it, the views acquired so far are the slots `0 .. VEC_current - 1`, all of them
still held, and nothing has been released. -/
def Running (n : Nat) (f : Frame) : Prop :=
  f.VEC_maximum = n ∧ 0 ≤ f.VEC_current ∧ f.VEC_current ≤ f.VEC_maximum ∧
  acquired f.calls = List.range f.VEC_current.toNat ∧
  (ledger f.calls).held = List.range f.VEC_current.toNat ∧
  (ledger f.calls).held.length = f.VEC_current.toNat ∧
  (ledger f.calls).stray = [] ∧
  releases f.calls = []

/-- The bookkeeping of the buffer-protocol variant at a `return NULL`: the
views acquired were the slots `0 .. VEC_current - 1`, exactly these were
released, once each and in this order, no view is held any more, and no slot
was released that was not held. -/
def Unwound (n : Nat) (f : Frame) : Prop :=
  f.VEC_maximum = n ∧ 0 ≤ f.VEC_current ∧ f.VEC_current ≤ f.VEC_maximum ∧
  acquired f.calls = List.range f.VEC_current.toNat ∧
  releases f.calls = List.range f.VEC_current.toNat ∧
  (ledger f.calls).held = [] ∧
  (ledger f.calls).stray = []

/-- The bookkeeping condition on an outcome of the buffer-protocol glue:
`Running` while control falls through, `Unwound` at a `return NULL`. -/
def Flow.Accounted (n : Nat) : Flow → Prop
  | .next f => Running n f
  | .returnedNULL f => Unwound n f

/-! ## Concrete runtimes used in the examples -/

/-- A runtime with three buffer objects: object 1 has 16 bytes at address
1000, object 2 has 24 bytes at address 2000, object 3 has 12 bytes at address
3000 and item size 4; every other object is not a buffer (code -1). -/
def demoRuntime : PyRuntime where
  PyObject_AsReadBuffer := fun obj =>
    if obj = 1 then { err := 0, buf := 1000, len := 16 }
    else if obj = 2 then { err := 0, buf := 2000, len := 24 }
    else if obj = 3 then { err := 0, buf := 3000, len := 12 }
    else { err := -1, buf := 0, len := 0 }
  PyObject_AsWriteBuffer := fun obj =>
    if obj = 1 then { err := 0, buf := 1000, len := 16 }
    else if obj = 2 then { err := 0, buf := 2000, len := 24 }
    else if obj = 3 then { err := 0, buf := 3000, len := 12 }
    else { err := -1, buf := 0, len := 0 }
  PyObject_GetBuffer := fun obj _ =>
    if obj = 1 then { err := 0, view := { buf := 1000, len := 16, itemsize := 8 } }
    else if obj = 2 then { err := 0, view := { buf := 2000, len := 24, itemsize := 8 } }
    else if obj = 3 then { err := 0, view := { buf := 3000, len := 12, itemsize := 4 } }
    else { err := -1, view := { buf := 0, len := 0, itemsize := 0 } }

end Refl1d

/-! # The numerical core behind the entry points

`methods.h` only declares the entry points (`Preflectivity_amplitude`,
`Pcontract_by_step`, `Pcontract_by_area`, `Pcontract_mag`,
`Pconvolve_sampled`, ...); their bodies are in other files of the repository.
The definitions of this part are therefore modelled on the specification.
Real numbers are rationals; floating-point primitives the specification names
without defining (wavevector, Fresnel coefficient, phase factor) are
parameters.
-/

namespace Refl1d.Core

/-- Modelled from the spec: the error kinds of section 7; the bodies of the
entry points that signal them are not in `methods.h`. -/
inductive ErrorKind
  | ShapeMismatch
  | InvalidProfile
  | DivisionSingular
  | ProfileMismatch
  | InsufficientRange
deriving DecidableEq, Repr

/-- Modelled from the spec: a complex number (section 4.1, ComplexOptics), over
the rationals; the complex helpers are not in `methods.h`. -/
structure Cplx where
  re : ℚ
  im : ℚ
deriving DecidableEq, Repr

/-- Modelled from the spec: the complex zero (ComplexOptics is not in
`methods.h`). -/
def Cplx.zero : Cplx := { re := 0, im := 0 }

/-- Modelled from the spec: the complex one (ComplexOptics is not in
`methods.h`). -/
def Cplx.one : Cplx := { re := 1, im := 0 }

/-- Modelled from the spec: complex addition (ComplexOptics is not in
`methods.h`). -/
def Cplx.add (a b : Cplx) : Cplx := { re := a.re + b.re, im := a.im + b.im }

/-- Modelled from the spec: complex multiplication (ComplexOptics is not in
`methods.h`). -/
def Cplx.mul (a b : Cplx) : Cplx :=
  { re := a.re * b.re - a.im * b.im, im := a.re * b.im + a.im * b.re }

/-- Modelled from the spec: the squared modulus (ComplexOptics is not in
`methods.h`). -/
def Cplx.normSq (a : Cplx) : ℚ := a.re * a.re + a.im * a.im

/-- Modelled from the spec: `complex_div(a, b)` of section 4.1, whose body is
not in `methods.h`: division that signals `DivisionSingular` when `|b|` is
below the configured epsilon (compared through the squares). -/
def complex_div (epsilon : ℚ) (a b : Cplx) : Except ErrorKind Cplx :=
  if 0 < epsilon ∧ b.normSq < epsilon * epsilon then .error .DivisionSingular
  else .ok { re := (a.re * b.re + a.im * b.im) / b.normSq
             im := (a.im * b.re - a.re * b.im) / b.normSq }

/-- Modelled from the spec: a layer of a nonmagnetic DepthProfile (section 3):
cumulative depth, density, absorption.  The profile types are not in
`methods.h`. -/
structure Layer where
  depth : ℚ
  density : ℚ
  absorption : ℚ
deriving DecidableEq, Repr

/-- Modelled from the spec: a layer of a magnetic DepthProfile (section 3),
with moment and angle in addition.  The profile types are not in
`methods.h`. -/
structure MagLayer where
  depth : ℚ
  density : ℚ
  absorption : ℚ
  moment : ℚ
  angle : ℚ
deriving DecidableEq, Repr

/-- Modelled from the spec: the DepthProfile invariant of section 3, "depths
strictly increasing except possibly a repeated first/last value": the depths
never decrease, and strictly increase over the interior layers.  No profile
type is declared in `methods.h`. -/
def DepthInvariant (depths : List ℚ) : Prop :=
  List.Chain' (fun a b => a ≤ b) depths ∧ List.Chain' (fun a b => a < b) depths.tail.dropLast

/-- Modelled from the spec: the number of interior layers of a profile, the
first and the last layer being the semi-infinite ones (section 4.5).  No
profile type is declared in `methods.h`. -/
def interiorCount {α : Type} (p : List α) : Nat := p.length - 2

/-- Modelled from the spec: the cumulative depth reached after the layers
with the given depths, starting from depth `d0` (section 3, "cumulative
thickness").  No profile type is declared in `methods.h`. -/
def lastDepth (d0 : ℚ) : List ℚ → ℚ
  | [] => d0
  | d :: ds => lastDepth d ds

/-! ## ProfileContractor (section 4.5) -/

/-- Modelled from the spec: the frame shared by the three contraction
strategies of section 4.5, whose bodies (`Pcontract_by_step`,
`Pcontract_by_area`, `Pcontract_mag`) are not in `methods.h`.  "The first and
last (semi-infinite) layers are never merged with interior layers": the first
and last layer are kept and the pass runs over the interior layers, started
on the first of them; `pass` also receives the first layer of the profile,
whose depth is where the interior begins. -/
def contractProfile {α : Type} (pass : α → α → List α → List α) : List α → List α
  | [] => []
  | [a] => [a]
  | first :: second :: rest =>
    match (second :: rest).dropLast with
    | [] => [first, (second :: rest).getLast (List.cons_ne_nil _ _)]
    | i :: is => first :: pass first i is ++ [(second :: rest).getLast (List.cons_ne_nil _ _)]

/-- Modelled from the spec: the single left-to-right pass of `by_step`
(section 4.5; the body of `Pcontract_by_step` is not in `methods.h`): "merges
consecutive layers whose density (and absorption) differ from a running
reference by less than the tolerance, accumulating thickness; resets the
reference when the bound would be exceeded".  The slab being built carries
the reference values; absorbing a layer moves its cumulative depth to that
layer's. -/
def stepPass (tol : ℚ) : Layer → List Layer → List Layer
  | ref, [] => [ref]
  | ref, l :: rest =>
    if |l.density - ref.density| < tol ∧ |l.absorption - ref.absorption| < tol then
      stepPass tol { ref with depth := l.depth } rest
    else ref :: stepPass tol l rest

/-- Modelled from the spec: `contract_by_step(depth, density, absorption,
tolerance)` of sections 4.5 and 6, whose body `Pcontract_by_step` is not in
`methods.h`. -/
def contract_by_step (p : List Layer) (tol : ℚ) : List Layer :=
  contractProfile (fun _ i is => stepPass tol i is) p

/-- Modelled from the spec: the accumulator of `by_area` (section 4.5; the body
of `Pcontract_by_area` is not in `methods.h`): the slab built so far, whose
density and absorption are the "running weighted average", its accumulated
thickness, and the "cumulative deviation integral". -/
structure AreaState where
  slab : Layer
  thickness : ℚ
  deviation : ℚ
deriving DecidableEq, Repr

/-- Modelled from the spec: the single pass of `by_area` (section 4.5; the body
of `Pcontract_by_area` is not in `methods.h`): "merges consecutive layers while
the integrated area between the actual density curve and a constant
approximation stays under tolerance × thickness".  The thickness of a layer is
the increase of the cumulative depth; the constant approximation is the
thickness-weighted average. -/
def areaPass (tol : ℚ) : AreaState → List Layer → List Layer
  | s, [] => [s.slab]
  | s, l :: rest =>
    let t := l.depth - s.slab.depth
    let T := s.thickness + t
    let avg := (s.slab.density * s.thickness + l.density * t) / T
    let D := s.deviation + t * |l.density - avg|
    if D < tol * T then
      areaPass tol
        { slab := { depth := l.depth
                    density := avg
                    absorption := (s.slab.absorption * s.thickness + l.absorption * t) / T }
          thickness := T
          deviation := D } rest
    else s.slab :: areaPass tol { slab := l, thickness := t, deviation := 0 } rest

/-- Modelled from the spec: `contract_by_area(depth, density, absorption,
tolerance)` of sections 4.5 and 6, whose body `Pcontract_by_area` is not in
`methods.h`. -/
def contract_by_area (p : List Layer) (tol : ℚ) : List Layer :=
  contractProfile
    (fun first i is =>
      areaPass tol { slab := i, thickness := i.depth - first.depth, deviation := 0 } is) p

/-- Modelled from the spec: the tolerances of `contract_mag` (section 6,
"tolerances"), one for each tracked channel of section 4.5 ("their respective
tolerances").  Not declared in `methods.h`. -/
structure MagTolerances where
  density : ℚ
  absorption : ℚ
  moment : ℚ
  angle : ℚ
deriving DecidableEq, Repr

/-- Modelled from the spec: the accumulator of `by_mag` (section 4.5; the body
of `Pcontract_mag` is not in `methods.h`): the slab built so far (running
weighted averages), its accumulated thickness, and one cumulative deviation
integral for each channel. -/
structure MagState where
  slab : MagLayer
  thickness : ℚ
  devDensity : ℚ
  devAbsorption : ℚ
  devMoment : ℚ
  devAngle : ℚ
deriving DecidableEq, Repr

/-- Modelled from the spec: the single pass of `by_mag` (section 4.5; the body
of `Pcontract_mag` is not in `methods.h`): "like by_area but evaluated jointly
over density, absorption, and magnetic moment/angle, merging only where all
tracked channels stay within their respective tolerances simultaneously". -/
def magPass (tol : MagTolerances) : MagState → List MagLayer → List MagLayer
  | s, [] => [s.slab]
  | s, l :: rest =>
    let t := l.depth - s.slab.depth
    let T := s.thickness + t
    let avgD := (s.slab.density * s.thickness + l.density * t) / T
    let avgA := (s.slab.absorption * s.thickness + l.absorption * t) / T
    let avgM := (s.slab.moment * s.thickness + l.moment * t) / T
    let avgG := (s.slab.angle * s.thickness + l.angle * t) / T
    let dD := s.devDensity + t * |l.density - avgD|
    let dA := s.devAbsorption + t * |l.absorption - avgA|
    let dM := s.devMoment + t * |l.moment - avgM|
    let dG := s.devAngle + t * |l.angle - avgG|
    if dD < tol.density * T ∧ dA < tol.absorption * T ∧ dM < tol.moment * T ∧
        dG < tol.angle * T then
      magPass tol
        { slab := { depth := l.depth, density := avgD, absorption := avgA
                    moment := avgM, angle := avgG }
          thickness := T
          devDensity := dD, devAbsorption := dA, devMoment := dM, devAngle := dG } rest
    else
      s.slab :: magPass tol
        { slab := l, thickness := t
          devDensity := 0, devAbsorption := 0, devMoment := 0, devAngle := 0 } rest

/-- Modelled from the spec: `contract_mag(depth, density, absorption, moment,
angle, tolerances)` of sections 4.5 and 6, whose body `Pcontract_mag` is not in
`methods.h`. -/
def contract_mag (p : List MagLayer) (tol : MagTolerances) : List MagLayer :=
  contractProfile
    (fun first i is =>
      magPass tol
        { slab := i, thickness := i.depth - first.depth
          devDensity := 0, devAbsorption := 0, devMoment := 0, devAngle := 0 } is) p

/-! ## AmplitudeEngine (section 4.2) -/

/-- Modelled from the spec: the floating-point ingredients of the amplitude
recursion that section 4.2 names (none of them is in `methods.h`): the
perpendicular wavevector of a layer at a momentum value,
`complex_sqrt(k0² − 4π·density_contrast)`, given the ambient and substrate
index values; the Fresnel coefficient between two adjacent layer wavevectors;
the phase factor `exp(2i·k·thickness)`; and the epsilon of `complex_div`. -/
structure Optics where
  wavevector : ℚ → Layer → ℚ → ℚ → Cplx
  fresnel : Cplx → Cplx → Cplx
  phase : Cplx → ℚ → Cplx
  epsilon : ℚ

/-- Modelled from the spec: "zero-thickness layers are skipped (contribute an
identity step)" (section 4.2; the body of `Preflectivity_amplitude` is not in
`methods.h`).  The layers below `prev` are filtered; the last layer is the
semi-infinite substrate and is kept. -/
def dropZeroThickness : Layer → List Layer → List Layer
  | _, [] => []
  | _, [last] => [last]
  | prev, l :: m :: rest =>
    if l.depth - prev.depth = 0 then dropZeroThickness prev (m :: rest)
    else l :: dropZeroThickness l (m :: rest)

/-- Modelled from the spec: the Fresnel coefficient of an interface (section
4.2; not in `methods.h`): "a layer with wavevector whose imaginary part ties
(degenerate contrast) with its neighbor yields `r_local = 0`". -/
def r_local (o : Optics) (kUpper kLower : Cplx) : Cplx :=
  if kUpper.im = kLower.im then Cplx.zero else o.fresnel kUpper kLower

/-- Modelled from the spec: the recursion of section 4.2 (the body of
`Preflectivity_amplitude` is not in `methods.h`): "combine layers from the
substrate upward ...: maintain a running complex reflectivity ratio `r`, and
at each interface update `r ← (r_local + r·phase) / (1 + r_local·r·phase)`".
The ratio is that seen from `upper`, with `below` the layers under it; it
starts at 0 in the bottom layer, under which there is no interface and hence
no reflected wave. -/
def amplitudeFrom (o : Optics) (q ambient substrate : ℚ) : Layer → List Layer →
    Except ErrorKind Cplx
  | _, [] => .ok Cplx.zero
  | upper, lower :: rest =>
    match amplitudeFrom o q ambient substrate lower rest with
    | .error e => .error e
    | .ok r =>
      let kUpper := o.wavevector q upper ambient substrate
      let kLower := o.wavevector q lower ambient substrate
      let ph := o.phase kLower (lower.depth - upper.depth)
      let rl := r_local o kUpper kLower
      complex_div o.epsilon (rl.add (r.mul ph)) (Cplx.one.add ((rl.mul r).mul ph))

/-- Modelled from the spec: the layers of a profile given as the paired
arrays of section 6 (no profile type is declared in `methods.h`). -/
def layersOf : List ℚ → List ℚ → List ℚ → List Layer
  | d :: ds, r :: rs, a :: as => { depth := d, density := r, absorption := a } :: layersOf ds rs as
  | _, _, _ => []

/-- Modelled from the spec: `reflectivity_amplitude(momentum, depth, density,
absorption, ambient, substrate)` of sections 4.2 and 6, whose body
`Preflectivity_amplitude` is not in `methods.h`.  A length mismatch between
the paired arrays signals `ShapeMismatch` and a depth array that decreases
somewhere signals `InvalidProfile`, both before any computation; a
`DivisionSingular` is reported at its own momentum point. -/
def reflectivity_amplitude (o : Optics) (momentum depth density absorption : List ℚ)
    (ambient substrate : ℚ) : Except ErrorKind (List (Except ErrorKind Cplx)) :=
  if depth.length ≠ density.length ∨ depth.length ≠ absorption.length then
    .error .ShapeMismatch
  else if ¬ List.Chain' (fun a b => a ≤ b) depth then
    .error .InvalidProfile
  else
    .ok (momentum.map fun q =>
      match layersOf depth density absorption with
      | [] => .ok Cplx.zero
      | top :: below => amplitudeFrom o q ambient substrate top (dropZeroThickness top below))

/-! ## ResolutionConvolver (section 4.6) -/

end Refl1d.Core

/-! # Theorems about the glue -/

namespace Refl1d

theorem guard_false (hex : Nat) (limited : Bool) : guard hex limited = false := by
  simp [guard]

/-! ## Fallback variant: one use and sequences of uses -/

theorem useCompiled_eq (hex : Nat) (limited : Bool) (rt : PyRuntime) (u : VectorUse)
    (f : Frame) :
    useCompiled hex limited rt u f =
      if (legacyReply rt u).err < 0 then .returnedNULL (f.call (legacyCall u))
      else .next ((f.call (legacyCall u)).bind (legacyBinding rt u).buf (legacyBinding rt u).len) := by
  cases h : u.out <;>
    simp [useCompiled, INVECTOR, OUTVECTOR, guard_false, Fallback.INVECTOR, Fallback.OUTVECTOR,
      legacyReply, legacyCall, legacyBinding, h]

theorem runUses_compiled_isNULL (hex : Nat) (limited : Bool) (rt : PyRuntime)
    (uses : List VectorUse) (f : Frame) :
    (runUses (useCompiled hex limited rt) uses f).isNULL = true ↔
      ∃ u ∈ uses, (legacyReply rt u).err < 0 := by
  induction uses generalizing f with
  | nil => simp [runUses, Flow.isNULL]
  | cons u us ih =>
    by_cases h : (legacyReply rt u).err < 0
    · simp [runUses, useCompiled_eq, h, Flow.isNULL]
    · simp [runUses, useCompiled_eq, h, ih]

theorem runUses_compiled_ok (hex : Nat) (limited : Bool) (rt : PyRuntime)
    (uses : List VectorUse) (f : Frame) (h : ∀ u ∈ uses, ¬ (legacyReply rt u).err < 0) :
    runUses (useCompiled hex limited rt) uses f =
      .next { f with bound := f.bound ++ uses.map (legacyBinding rt)
                     calls := f.calls ++ uses.map legacyCall } := by
  induction uses generalizing f with
  | nil => simp [runUses]
  | cons u us ih =>
    have hu : ¬ (legacyReply rt u).err < 0 := h u (List.mem_cons_self _ _)
    have hus : ∀ v ∈ us, ¬ (legacyReply rt v).err < 0 :=
      fun v hv => h v (List.mem_cons_of_mem _ hv)
    simp [runUses, useCompiled_eq, hu, ih _ hus, Frame.call, Frame.bind, legacyBinding]

/-! ## Buffer-protocol variant: bookkeeping lemmas -/

theorem ledger_append (cs ds : List ApiCall) :
    ledger (cs ++ ds) = ds.foldl Ledger.step (ledger cs) := by
  simp [ledger, List.foldl_append]

theorem releases_append (cs ds : List ApiCall) :
    releases (cs ++ ds) = releases cs ++ releases ds := by
  induction cs with
  | nil => simp [releases]
  | cons c cs ih => cases c <;> simp [releases, ih]

theorem acquired_append (cs ds : List ApiCall) :
    acquired (cs ++ ds) = acquired cs ++ acquired ds := by
  induction cs with
  | nil => simp [acquired]
  | cons c cs ih =>
    cases c <;> simp [acquired, ih]
    split <;> simp

theorem releases_map_Release (xs : List Nat) :
    releases (xs.map ApiCall.Release) = xs := by
  induction xs with
  | nil => simp [releases]
  | cons x xs ih => simp [releases, ih]

theorem acquired_map_Release (xs : List Nat) :
    acquired (xs.map ApiCall.Release) = [] := by
  induction xs with
  | nil => simp [acquired]
  | cons x xs ih => simp [acquired, ih]

theorem foldl_release_range' (m k : Nat) (l : Ledger) (h : l.held = List.range' k m) :
    ((List.range' k m).map ApiCall.Release).foldl Ledger.step l = { l with held := [] } := by
  induction m generalizing k l with
  | zero =>
    cases l
    simp at h
    simp [h]
  | succ m ih =>
    rw [List.range'_succ] at h ⊢
    have hstep : l.step (.Release k) = { l with held := List.range' (k + 1) m } := by
      simp [Ledger.step, h]
    simp only [List.map_cons, List.foldl_cons, hstep]
    rw [ih (k + 1) _ rfl]

theorem freeLoop_eq (fuel : Nat) (k : Int) (f : Frame) (hk : 0 ≤ k)
    (h : k + fuel = f.VEC_current) :
    BufferProtocol.freeLoop fuel k f =
      { f with calls := f.calls ++ (List.range' k.toNat fuel).map ApiCall.Release } := by
  induction fuel generalizing k f with
  | zero => simp [BufferProtocol.freeLoop]
  | succ fuel ih =>
    have hlt : k < f.VEC_current := by omega
    have hk1 : (k + 1).toNat = k.toNat + 1 := by omega
    rw [BufferProtocol.freeLoop, if_pos hlt, ih (k + 1) _ (by omega)
      (by simp only [Frame.call]; omega)]
    simp [Frame.call, List.range'_succ, hk1]

theorem FREE_VECTORS_eq (f : Frame) (h : 0 ≤ f.VEC_current) :
    BufferProtocol.FREE_VECTORS f =
      { f with calls := f.calls ++ (List.range f.VEC_current.toNat).map ApiCall.Release } := by
  rw [BufferProtocol.FREE_VECTORS, freeLoop_eq _ 0 f (le_refl 0) (by omega)]
  simp [List.range_eq_range']

theorem unwound_FREE_VECTORS (n : Nat) (g : Frame) (h : Running n g) :
    Unwound n (BufferProtocol.FREE_VECTORS g) := by
  obtain ⟨hmax, h0, hle, hacq, hheld, _, hstray, hrel⟩ := h
  rw [FREE_VECTORS_eq g h0]
  refine ⟨hmax, h0, hle, ?_, ?_, ?_, ?_⟩
  · simp [acquired_append, acquired_map_Release, hacq]
  · simp [releases_append, releases_map_Release, hrel]
  · simp only [ledger_append]
    rw [List.range_eq_range'] at hheld ⊢
    rw [foldl_release_range' _ _ _ hheld]
  · simp only [ledger_append]
    rw [List.range_eq_range'] at hheld ⊢
    rw [foldl_release_range' _ _ _ hheld]
    exact hstray

theorem running_SetString (n : Nat) (f : Frame) (m : TypeErrorText) (h : Running n f) :
    Running n (f.call (.SetString m)) := by
  obtain ⟨hmax, h0, hle, hacq, hheld, hlen, hstray, hrel⟩ := h
  refine ⟨hmax, h0, hle, ?_, ?_, ?_, ?_, ?_⟩ <;>
    simp [Frame.call, acquired_append, releases_append, ledger_append, acquired, releases,
      Ledger.step, hacq, hheld, hstray, hrel]

theorem running_GetBuffer_failed (n : Nat) (f : Frame) (obj : PyObject) (flags slot : Nat)
    (err : Int) (herr : err < 0) (h : Running n f) :
    Running n (f.call (.GetBuffer obj flags slot err)) := by
  obtain ⟨hmax, h0, hle, hacq, hheld, hlen, hstray, hrel⟩ := h
  refine ⟨hmax, h0, hle, ?_, ?_, ?_, ?_, ?_⟩ <;>
    simp [Frame.call, acquired_append, releases_append, ledger_append, acquired, releases,
      Ledger.step, hacq, hheld, hstray, hrel, herr]

theorem running_GetBuffer_ok (n : Nat) (f : Frame) (obj : PyObject) (flags : Nat)
    (err : Int) (v : Py_buffer) (herr : ¬ err < 0) (hroom : ¬ f.VEC_current ≥ f.VEC_maximum)
    (h : Running n f) :
    Running n { f.call (.GetBuffer obj flags f.VEC_current.toNat err) with
      VEC_views := (f.call (.GetBuffer obj flags f.VEC_current.toNat err)).VEC_views.set
        (f.call (.GetBuffer obj flags f.VEC_current.toNat err)).VEC_current.toNat v
      VEC_current := (f.call (.GetBuffer obj flags f.VEC_current.toNat err)).VEC_current + 1 } := by
  obtain ⟨hmax, h0, hle, hacq, hheld, hlen, hstray, hrel⟩ := h
  have hc : (f.VEC_current + 1).toNat = f.VEC_current.toNat + 1 := by omega
  refine ⟨hmax, ?_, ?_, ?_, ?_, ?_, ?_, ?_⟩
  · simp only [Frame.call]; omega
  · simp only [Frame.call]; omega
  · simp [Frame.call, acquired_append, acquired, herr, hacq, hc, List.range_succ]
  · simp [Frame.call, ledger_append, Ledger.step, herr, hheld, hc, List.range_succ]
  · simp [Frame.call, ledger_append, Ledger.step, herr, hheld, hc]
  · simp [Frame.call, ledger_append, Ledger.step, herr, hstray]
  · simp [Frame.call, releases_append, releases, hrel]

theorem running_bind (n : Nat) (f : Frame) (buf len : Nat) (h : Running n f) :
    Running n (f.bind buf len) := h

theorem running_DECLARE_VECTORS (n : Nat) :
    Running n (BufferProtocol.DECLARE_VECTORS n Frame.entry) := by
  simp [Running, BufferProtocol.DECLARE_VECTORS, Frame.entry, acquired, ledger, releases]

theorem accounted_VECTOR (n : Nat) (rt : PyRuntime) (obj : PyObject) (size flags : Nat)
    (f : Frame) (h : Running n f) :
    (BufferProtocol._VECTOR rt obj size flags f).Accounted n := by
  unfold BufferProtocol._VECTOR
  by_cases hroom : f.VEC_current ≥ f.VEC_maximum
  · rw [if_pos hroom]
    exact unwound_FREE_VECTORS n _ (running_SetString n f _ h)
  · rw [if_neg hroom]
    by_cases herr : (rt.PyObject_GetBuffer obj flags).err < 0
    · simp only [herr, if_true]
      exact unwound_FREE_VECTORS n _ (running_GetBuffer_failed n f _ _ _ _ herr h)
    · simp only [herr, if_false]
      have h2 := running_GetBuffer_ok n f obj flags _ (rt.PyObject_GetBuffer obj flags).view
        herr hroom h
      by_cases hsize : size ≠ (rt.PyObject_GetBuffer obj flags).view.itemsize
      · rw [if_pos hsize]
        exact unwound_FREE_VECTORS n _ (running_SetString n _ _ h2)
      · rw [if_neg hsize]
        exact running_bind n _ _ _ h2

theorem accounted_runUses {υ : Type} (n : Nat) (step : υ → Frame → Flow)
    (hstep : ∀ u f, Running n f → (step u f).Accounted n) (uses : List υ) (f : Frame)
    (h : Running n f) :
    (runUses step uses f).Accounted n := by
  induction uses generalizing f with
  | nil => exact h
  | cons u us ih =>
    have hu := hstep u f h
    rw [runUses]
    cases hflow : step u f with
    | next f1 =>
      rw [hflow] at hu
      exact ih f1 hu
    | returnedNULL f1 =>
      rw [hflow] at hu
      exact hu

theorem accounted_useRaw (n : Nat) (rt : PyRuntime) (u : RawUse) (f : Frame)
    (h : Running n f) : (useRaw rt u f).Accounted n :=
  accounted_VECTOR n rt u.obj u.size u.flags f h

theorem accounted_useBufferProtocol (n : Nat) (rt : PyRuntime) (u : VectorUse) (f : Frame)
    (h : Running n f) : (useBufferProtocol rt u f).Accounted n := by
  unfold useBufferProtocol
  split
  · exact accounted_VECTOR n rt _ _ _ f h
  · exact accounted_VECTOR n rt _ _ _ f h

/-! ## The glue as compiled (claims on `INVECTOR` / `OUTVECTOR`) -/

/-- C9: in the configuration that is compiled the guard is false whatever
`PY_VERSION_HEX` and `Py_LIMITED_API` are, `DECLARE_VECTORS` and `FREE_VECTORS`
leave the function state untouched, and `INVECTOR` / `OUTVECTOR` execute
`return NULL` exactly when the buffer call returns a negative code, having
assigned nothing; otherwise they fall through having assigned `buf` the
address the call stored and `len` the value `byte_length / sizeof(element)`
(floor division), and nothing else.  The only CPython call made is the one
legacy buffer call, and whether NULL is returned is the same for every
element size: there is no element-size check. -/
theorem compiled_glue_is_fallback (hex : Nat) (limited : Bool) (rt : PyRuntime) (n : Nat)
    (obj : PyObject) (size : Nat) (f : Frame) :
    guard hex limited = false ∧
    DECLARE_VECTORS hex limited n f = f ∧
    FREE_VECTORS hex limited f = f ∧
    ((INVECTOR hex limited rt obj size f).isNULL = true ↔
      (rt.PyObject_AsReadBuffer obj).err < 0) ∧
    ((OUTVECTOR hex limited rt obj size f).isNULL = true ↔
      (rt.PyObject_AsWriteBuffer obj).err < 0) ∧
    INVECTOR hex limited rt obj size f =
      (if (rt.PyObject_AsReadBuffer obj).err < 0 then
        .returnedNULL { f with calls := f.calls ++ [.AsReadBuffer obj] }
      else
        .next { f with
          bound := f.bound ++ [{ buf := (rt.PyObject_AsReadBuffer obj).buf
                                 len := (rt.PyObject_AsReadBuffer obj).len / size }]
          calls := f.calls ++ [.AsReadBuffer obj] }) ∧
    OUTVECTOR hex limited rt obj size f =
      (if (rt.PyObject_AsWriteBuffer obj).err < 0 then
        .returnedNULL { f with calls := f.calls ++ [.AsWriteBuffer obj] }
      else
        .next { f with
          bound := f.bound ++ [{ buf := (rt.PyObject_AsWriteBuffer obj).buf
                                 len := (rt.PyObject_AsWriteBuffer obj).len / size }]
          calls := f.calls ++ [.AsWriteBuffer obj] }) ∧
    (¬ (rt.PyObject_AsReadBuffer obj).err < 0 →
      (INVECTOR hex limited rt obj size f).frame.bound =
        f.bound ++ [{ buf := (rt.PyObject_AsReadBuffer obj).buf
                      len := (rt.PyObject_AsReadBuffer obj).len / size }]) ∧
    (¬ (rt.PyObject_AsWriteBuffer obj).err < 0 →
      (OUTVECTOR hex limited rt obj size f).frame.bound =
        f.bound ++ [{ buf := (rt.PyObject_AsWriteBuffer obj).buf
                      len := (rt.PyObject_AsWriteBuffer obj).len / size }]) ∧
    ((rt.PyObject_AsReadBuffer obj).err < 0 →
      (INVECTOR hex limited rt obj size f).frame.bound = f.bound) ∧
    ((rt.PyObject_AsWriteBuffer obj).err < 0 →
      (OUTVECTOR hex limited rt obj size f).frame.bound = f.bound) ∧
    (∀ size2 : Nat, (INVECTOR hex limited rt obj size2 f).isNULL =
      (INVECTOR hex limited rt obj size f).isNULL) ∧
    (∀ size2 : Nat, (OUTVECTOR hex limited rt obj size2 f).isNULL =
      (OUTVECTOR hex limited rt obj size f).isNULL) := by
  have hin : ∀ s : Nat, INVECTOR hex limited rt obj s f =
      (if (rt.PyObject_AsReadBuffer obj).err < 0 then
        .returnedNULL { f with calls := f.calls ++ [.AsReadBuffer obj] }
      else
        .next { f with
          bound := f.bound ++ [{ buf := (rt.PyObject_AsReadBuffer obj).buf
                                 len := (rt.PyObject_AsReadBuffer obj).len / s }]
          calls := f.calls ++ [.AsReadBuffer obj] }) := by
    intro s
    simp [INVECTOR, guard_false, Fallback.INVECTOR, Frame.call, Frame.bind]
  have hout : ∀ s : Nat, OUTVECTOR hex limited rt obj s f =
      (if (rt.PyObject_AsWriteBuffer obj).err < 0 then
        .returnedNULL { f with calls := f.calls ++ [.AsWriteBuffer obj] }
      else
        .next { f with
          bound := f.bound ++ [{ buf := (rt.PyObject_AsWriteBuffer obj).buf
                                 len := (rt.PyObject_AsWriteBuffer obj).len / s }]
          calls := f.calls ++ [.AsWriteBuffer obj] }) := by
    intro s
    simp [OUTVECTOR, guard_false, Fallback.OUTVECTOR, Frame.call, Frame.bind]
  refine ⟨guard_false hex limited, ?_, ?_, ?_, ?_, hin size, hout size, ?_, ?_, ?_, ?_, ?_, ?_⟩
  · simp [DECLARE_VECTORS, guard_false, Fallback.DECLARE_VECTORS]
  · simp [FREE_VECTORS, guard_false, Fallback.FREE_VECTORS]
  · rw [hin]; split <;> simp_all [Flow.isNULL]
  · rw [hout]; split <;> simp_all [Flow.isNULL]
  · intro h; rw [hin, if_neg h]; rfl
  · intro h; rw [hout, if_neg h]; rfl
  · intro h; rw [hin, if_pos h]; rfl
  · intro h; rw [hout, if_pos h]; rfl
  · intro s2; rw [hin, hin]; split <;> simp [Flow.isNULL]
  · intro s2; rw [hout, hout]; split <;> simp [Flow.isNULL]

/-- Witness for C9: on the 24-byte object 2 read as 8-byte elements
`INVECTOR` and `OUTVECTOR` assign `len = 3`; on the 12-byte object 3, whose
items are 4 bytes wide, they still fall through, with `len = 12 / 8 = 1`; on
object 7, whose buffer call returns -1, nothing is assigned and NULL is
returned. -/
theorem compiled_glue_is_fallback_witness :
    (¬ (demoRuntime.PyObject_AsReadBuffer 2).err < 0) ∧
    (INVECTOR 0x030B0000 false demoRuntime 2 8 Frame.entry).frame.bound = [⟨2000, 3⟩] ∧
    (OUTVECTOR 0x030B0000 false demoRuntime 2 8 Frame.entry).frame.bound = [⟨2000, 3⟩] ∧
    (INVECTOR 0x030B0000 false demoRuntime 3 8 Frame.entry).frame.bound = [⟨3000, 1⟩] ∧
    (INVECTOR 0x030B0000 false demoRuntime 3 8 Frame.entry).isNULL = false ∧
    (demoRuntime.PyObject_AsReadBuffer 7).err < 0 ∧
    (INVECTOR 0x030B0000 false demoRuntime 7 8 Frame.entry).frame.bound = [] ∧
    (INVECTOR 0x030B0000 false demoRuntime 7 8 Frame.entry).isNULL = true :=
  ⟨by decide,
   (compiled_glue_is_fallback 0x030B0000 false demoRuntime 0 2 8 Frame.entry).2.2.2.2.2.2.2.1
      (by decide),
   (compiled_glue_is_fallback 0x030B0000 false demoRuntime 0 2 8 Frame.entry).2.2.2.2.2.2.2.2.1
      (by decide),
   (compiled_glue_is_fallback 0x030B0000 false demoRuntime 0 3 8 Frame.entry).2.2.2.2.2.2.2.1
      (by decide),
   Bool.eq_false_iff.mpr (fun h =>
      absurd ((compiled_glue_is_fallback 0x030B0000 false demoRuntime 0 3 8
        Frame.entry).2.2.2.1.mp h) (by decide)),
   by decide,
   (compiled_glue_is_fallback 0x030B0000 false demoRuntime 0 7 8 Frame.entry).2.2.2.2.2.2.2.2.2.1
      (by decide),
   (compiled_glue_is_fallback 0x030B0000 false demoRuntime 0 7 8 Frame.entry).2.2.2.1.mpr
      (by decide)⟩

/-- C1 (as stated, refuted): with a 16-byte depth buffer and a 24-byte density
buffer of 8-byte elements, two `INVECTOR` uses yield the element counts 2 and
3, which differ, and the function does not return NULL: both arrays are
extracted and control falls through. -/
theorem paired_lengths_not_compared :
    (legacyBinding demoRuntime ⟨false, 1, 8⟩).len ≠ (legacyBinding demoRuntime ⟨false, 2, 8⟩).len ∧
    runUses (useCompiled 0x030B0000 false demoRuntime) [⟨false, 1, 8⟩, ⟨false, 2, 8⟩]
        Frame.entry =
      .next { VEC_views := [], VEC_current := 0, VEC_maximum := 0
              bound := [⟨1000, 2⟩, ⟨2000, 3⟩]
              calls := [.AsReadBuffer 1, .AsReadBuffer 2] } := by
  decide

/-- C1 (amended): the glue treats every array on its own.  A sequence of
`INVECTOR` / `OUTVECTOR` uses returns NULL exactly when one of its buffer
calls returns a negative code; when none does, every use assigns its own
buffer address and its own element count `byte_length / sizeof(element)`,
whatever the counts of the other arrays are. -/
theorem vectors_extracted_independently (hex : Nat) (limited : Bool) (rt : PyRuntime)
    (uses : List VectorUse) (f : Frame) :
    ((runUses (useCompiled hex limited rt) uses f).isNULL = true ↔
      ∃ u ∈ uses, (legacyReply rt u).err < 0) ∧
    ((∀ u ∈ uses, ¬ (legacyReply rt u).err < 0) →
      runUses (useCompiled hex limited rt) uses f =
        .next { f with bound := f.bound ++ uses.map (legacyBinding rt)
                       calls := f.calls ++ uses.map legacyCall }) :=
  ⟨runUses_compiled_isNULL hex limited rt uses f, runUses_compiled_ok hex limited rt uses f⟩

/-- Witness for C1 (amended), at the depth/density pair of the refutation. -/
theorem vectors_extracted_independently_witness :
    (∀ u ∈ [(⟨false, 1, 8⟩ : VectorUse), ⟨false, 2, 8⟩], ¬ (legacyReply demoRuntime u).err < 0) ∧
    runUses (useCompiled 0x030B0000 false demoRuntime) [⟨false, 1, 8⟩, ⟨false, 2, 8⟩]
        Frame.entry =
      .next { Frame.entry with
        bound := Frame.entry.bound ++
          [(⟨false, 1, 8⟩ : VectorUse), ⟨false, 2, 8⟩].map (legacyBinding demoRuntime)
        calls := Frame.entry.calls ++
          [(⟨false, 1, 8⟩ : VectorUse), ⟨false, 2, 8⟩].map legacyCall } :=
  ⟨by decide,
    (vectors_extracted_independently 0x030B0000 false demoRuntime
      [⟨false, 1, 8⟩, ⟨false, 2, 8⟩] Frame.entry).2 (by decide)⟩

/-- C2 (as stated, refuted): a 12-byte buffer read as 8-byte elements is
accepted; `INVECTOR` falls through with `len = 1`, and `1 * 8` is not the
byte length 12: the trailing 4 bytes are dropped without an error. -/
theorem byte_length_rounded_down :
    (demoRuntime.PyObject_AsReadBuffer 3).len = 12 ∧
    INVECTOR 0x030B0000 false demoRuntime 3 8 Frame.entry =
      .next { VEC_views := [], VEC_current := 0, VEC_maximum := 0
              bound := [⟨3000, 1⟩]
              calls := [.AsReadBuffer 3] } ∧
    (legacyBinding demoRuntime ⟨false, 3, 8⟩).len * 8 ≠ (demoRuntime.PyObject_AsReadBuffer 3).len := by
  decide

/-- C2 (amended): a negative code from the buffer call always makes the
enclosing function return NULL; otherwise the use falls through with
`len = byte_length / sizeof(element)` rounded down, so that
`len * size ≤ byte_length < (len + 1) * size`, the `byte_length % size`
trailing bytes being left out of the count, and `len * size` equals the byte
length exactly when the byte length is a multiple of the element size. -/
theorem length_is_floor_of_bytes (hex : Nat) (limited : Bool) (rt : PyRuntime)
    (u : VectorUse) (f : Frame) (hsize : 0 < u.size) :
    useCompiled hex limited rt u f =
      (if (legacyReply rt u).err < 0 then .returnedNULL (f.call (legacyCall u))
      else .next ((f.call (legacyCall u)).bind (legacyReply rt u).buf
        ((legacyReply rt u).len / u.size))) ∧
    (legacyReply rt u).len / u.size * u.size ≤ (legacyReply rt u).len ∧
    (legacyReply rt u).len < ((legacyReply rt u).len / u.size + 1) * u.size ∧
    (legacyReply rt u).len / u.size * u.size + (legacyReply rt u).len % u.size =
      (legacyReply rt u).len ∧
    ((legacyReply rt u).len / u.size * u.size = (legacyReply rt u).len ↔
      u.size ∣ (legacyReply rt u).len) := by
  refine ⟨?_, ?_, ?_, ?_, ?_⟩
  · rw [useCompiled_eq]; rfl
  · exact Nat.div_mul_le_self _ _
  · have h1 := Nat.div_add_mod' (legacyReply rt u).len u.size
    have h2 := Nat.mod_lt (legacyReply rt u).len hsize
    rw [Nat.add_mul, Nat.one_mul]
    omega
  · exact Nat.div_add_mod' _ _
  · constructor
    · intro h; exact ⟨_, by rw [Nat.mul_comm] at h; exact h.symm⟩
    · intro h; exact Nat.div_mul_cancel h

/-- Witness for C2 (amended): the 12-byte buffer read as 8-byte elements falls
through with `len = 1`, and `1 * 8 ≤ 12 < 2 * 8`. -/
theorem length_is_floor_of_bytes_witness :
    0 < (⟨false, 3, 8⟩ : VectorUse).size ∧
    useCompiled 0x030B0000 false demoRuntime ⟨false, 3, 8⟩ Frame.entry =
      .next { VEC_views := [], VEC_current := 0, VEC_maximum := 0
              bound := [⟨3000, 1⟩]
              calls := [.AsReadBuffer 3] } ∧
    12 / 8 * 8 ≤ 12 ∧ 12 < (12 / 8 + 1) * 8 :=
  ⟨by decide,
   (length_is_floor_of_bytes 0x030B0000 false demoRuntime ⟨false, 3, 8⟩ Frame.entry
      (by decide)).1.trans (by decide),
   (length_is_floor_of_bytes 0x030B0000 false demoRuntime ⟨false, 3, 8⟩ Frame.entry
      (by decide)).2.1,
   (length_is_floor_of_bytes 0x030B0000 false demoRuntime ⟨false, 3, 8⟩ Frame.entry
      (by decide)).2.2.1⟩

/-- C10: in the buffer-protocol variant, after `DECLARE_VECTORS(n)` and any
sequence of `_VECTOR` uses (with any request flags; in particular any
sequence of `INVECTOR` / `OUTVECTOR` uses), `0 ≤ VEC_current ≤ VEC_maximum = n`.
While the function runs, the views acquired are the slots
`0 .. VEC_current - 1`, all still held, so `VEC_current` is the number of views
acquired and not released, and a `FREE_VECTORS()` at that point releases
exactly these, once each.  At a `return NULL` (too many vectors, acquisition
error, wrong element size) exactly the slots `0 .. VEC_current - 1` have been
released, once each, these are exactly the views that were acquired, no view
is held any more, and no slot was released that was not held: a view whose
acquisition failed is never released. -/
theorem views_accounted (rt : PyRuntime) (n : Nat) (raw : List RawUse)
    (uses : List VectorUse) :
    (match runUses (useRaw rt) raw (BufferProtocol.DECLARE_VECTORS n Frame.entry) with
      | .next f => Running n f ∧ Unwound n (BufferProtocol.FREE_VECTORS f)
      | .returnedNULL f => Unwound n f) ∧
    (match runUses (useBufferProtocol rt) uses
        (BufferProtocol.DECLARE_VECTORS n Frame.entry) with
      | .next f => Running n f ∧ Unwound n (BufferProtocol.FREE_VECTORS f)
      | .returnedNULL f => Unwound n f) := by
  have h1 := accounted_runUses n (useRaw rt) (accounted_useRaw n rt) raw _
    (running_DECLARE_VECTORS n)
  have h2 := accounted_runUses n (useBufferProtocol rt) (accounted_useBufferProtocol n rt)
    uses _ (running_DECLARE_VECTORS n)
  constructor
  · cases hflow : runUses (useRaw rt) raw (BufferProtocol.DECLARE_VECTORS n Frame.entry) with
    | next f => rw [hflow] at h1; exact ⟨h1, unwound_FREE_VECTORS n f h1⟩
    | returnedNULL f => rw [hflow] at h1; exact h1
  · cases hflow : runUses (useBufferProtocol rt) uses
        (BufferProtocol.DECLARE_VECTORS n Frame.entry) with
    | next f => rw [hflow] at h2; exact ⟨h2, unwound_FREE_VECTORS n f h2⟩
    | returnedNULL f => rw [hflow] at h2; exact h2

end Refl1d

/-! # Theorems about the numerical core (modelled on the specification) -/

namespace Refl1d.Core

/-- C4: for every momentum grid and every profile made of a single layer,
`reflectivity_amplitude` succeeds and returns the complex amplitude 0 at every
momentum value, whatever the wavevector, Fresnel and phase primitives are. -/
theorem single_layer_amplitude_zero (o : Optics) (momentum : List ℚ)
    (depth density absorption ambient substrate : ℚ) :
    reflectivity_amplitude o momentum [depth] [density] [absorption] ambient substrate =
      .ok (momentum.map fun _ => .ok Cplx.zero) := by
  simp [reflectivity_amplitude, layersOf, dropZeroThickness, amplitudeFrom]

/-! ## ProfileContractor -/

theorem contractProfile_shape {α : Type} (pass : α → α → List α → List α)
    (first i last : α) (is : List α) :
    contractProfile pass (first :: (i :: is) ++ [last]) = first :: pass first i is ++ [last] := by
  have hd : (i :: (is ++ [last])).dropLast = i :: is := by
    exact @List.dropLast_concat _ (i :: is) last
  have hl : (i :: (is ++ [last])).getLast (List.cons_ne_nil _ _) = last := by
    have := @List.getLast_append_singleton _ last (i :: is)
    simp
  show contractProfile pass (first :: i :: (is ++ [last])) = _
  simp only [contractProfile]
  split
  · rename_i heq; rw [hd] at heq; cases heq
  · rename_i j js heq
    rw [hd] at heq
    cases heq
    rw [hl]

theorem stepPass_nonpos (tol : ℚ) (h : tol ≤ 0) (ref : Layer) (rest : List Layer) :
    stepPass tol ref rest = ref :: rest := by
  induction rest generalizing ref with
  | nil => simp [stepPass]
  | cons l rest ih =>
    have hno : ¬ (|l.density - ref.density| < tol ∧ |l.absorption - ref.absorption| < tol) := by
      intro hc
      have := abs_nonneg (l.density - ref.density)
      linarith [hc.1]
    rw [stepPass, if_neg hno, ih]

/-- C5: for every depth profile and every tolerance `≤ 0`, `contract_by_step`
returns the input profile itself: the same number of layers, with identical
depth, density and absorption values. -/
theorem contract_by_step_nonpos (p : List Layer) (tol : ℚ) (h : tol ≤ 0) :
    contract_by_step p tol = p := by
  unfold contract_by_step
  match p with
  | [] => simp [contractProfile]
  | [a] => simp [contractProfile]
  | first :: second :: rest =>
    simp only [contractProfile]
    split
    · rename_i heq
      have hlen := congrArg List.length heq
      simp at hlen
      subst hlen
      simp
    · rename_i j js heq
      rw [stepPass_nonpos tol h, ← heq]
      simp [List.dropLast_append_getLast]

/-- Witness for C5: a six-layer profile contracted with tolerance 0. -/
theorem contract_by_step_nonpos_witness :
    (0 : ℚ) ≤ 0 ∧
    contract_by_step [⟨0, 1, 0⟩, ⟨1, 2, 0⟩, ⟨2, 2, 0⟩, ⟨3, 2, 0⟩, ⟨4, 3, 0⟩, ⟨5, 3, 0⟩] 0 =
      [⟨0, 1, 0⟩, ⟨1, 2, 0⟩, ⟨2, 2, 0⟩, ⟨3, 2, 0⟩, ⟨4, 3, 0⟩, ⟨5, 3, 0⟩] :=
  ⟨le_refl 0, contract_by_step_nonpos _ 0 (le_refl 0)⟩

theorem stepPass_uniform (tol : ℚ) (htol : 0 < tol) (ρ μ : ℚ) (is : List Layer) (ref : Layer)
    (hρ : ref.density = ρ) (hμ : ref.absorption = μ)
    (hu : ∀ l ∈ is, l.density = ρ ∧ l.absorption = μ) :
    stepPass tol ref is =
      [{ depth := lastDepth ref.depth (is.map Layer.depth), density := ρ, absorption := μ }] := by
  induction is generalizing ref with
  | nil =>
    cases ref
    simp_all [stepPass, lastDepth]
  | cons l rest ih =>
    have hl := hu l (List.mem_cons_self _ _)
    have hyes : |l.density - ref.density| < tol ∧ |l.absorption - ref.absorption| < tol := by
      rw [hl.1, hl.2, hρ, hμ]
      simp [htol]
    rw [stepPass, if_pos hyes,
      ih { ref with depth := l.depth } hρ hμ (fun m hm => hu m (List.mem_cons_of_mem _ hm))]
    simp [lastDepth]

theorem areaPass_uniform (tol : ℚ) (htol : 0 < tol) (ρ μ d0 : ℚ) (is : List Layer)
    (s : AreaState) (hρ : s.slab.density = ρ) (hμ : s.slab.absorption = μ)
    (hT : s.thickness = s.slab.depth - d0) (hD : s.deviation = 0)
    (hu : ∀ l ∈ is, l.density = ρ ∧ l.absorption = μ)
    (hdeep : ∀ l ∈ is, d0 < l.depth) :
    areaPass tol s is =
      [{ depth := lastDepth s.slab.depth (is.map Layer.depth), density := ρ, absorption := μ }] := by
  induction is generalizing s with
  | nil =>
    obtain ⟨slab, T, D⟩ := s
    cases slab
    simp_all [areaPass, lastDepth]
  | cons l rest ih =>
    have hl := hu l (List.mem_cons_self _ _)
    have hld := hdeep l (List.mem_cons_self _ _)
    have hTeq : s.thickness + (l.depth - s.slab.depth) = l.depth - d0 := by rw [hT]; ring
    have hTpos : 0 < s.thickness + (l.depth - s.slab.depth) := by rw [hTeq]; linarith
    have havg : ∀ v : ℚ, (v * s.thickness + v * (l.depth - s.slab.depth)) /
        (s.thickness + (l.depth - s.slab.depth)) = v := by
      intro v
      rw [← mul_add]
      exact mul_div_cancel_right₀ v (ne_of_gt hTpos)
    have hyes : s.deviation + (l.depth - s.slab.depth) *
        |l.density - (s.slab.density * s.thickness + l.density * (l.depth - s.slab.depth)) /
          (s.thickness + (l.depth - s.slab.depth))| <
        tol * (s.thickness + (l.depth - s.slab.depth)) := by
      rw [hl.1, hρ, havg, hD]
      simp
      exact mul_pos htol hTpos
    rw [areaPass]
    simp only [if_pos hyes]
    rw [ih _ (by simp only; rw [hl.1, hρ, havg]) (by simp only; rw [hl.2, hμ, havg])
      hTeq (by simp only; rw [hl.1, hρ, havg, hD]; simp)
      (fun m hm => hu m (List.mem_cons_of_mem _ hm))
      (fun m hm => hdeep m (List.mem_cons_of_mem _ hm))]
    simp [lastDepth]

theorem magPass_uniform (tol : MagTolerances) (h1 : 0 < tol.density) (h2 : 0 < tol.absorption)
    (h3 : 0 < tol.moment) (h4 : 0 < tol.angle) (ρ μ m g d0 : ℚ) (is : List MagLayer)
    (s : MagState)
    (hρ : s.slab.density = ρ) (hμ : s.slab.absorption = μ) (hm : s.slab.moment = m)
    (hg : s.slab.angle = g) (hT : s.thickness = s.slab.depth - d0)
    (hD1 : s.devDensity = 0) (hD2 : s.devAbsorption = 0) (hD3 : s.devMoment = 0)
    (hD4 : s.devAngle = 0)
    (hu : ∀ l ∈ is, l.density = ρ ∧ l.absorption = μ ∧ l.moment = m ∧ l.angle = g)
    (hdeep : ∀ l ∈ is, d0 < l.depth) :
    magPass tol s is =
      [{ depth := lastDepth s.slab.depth (is.map MagLayer.depth), density := ρ, absorption := μ
         moment := m, angle := g }] := by
  induction is generalizing s with
  | nil =>
    obtain ⟨slab, T, D1, D2, D3, D4⟩ := s
    cases slab
    simp_all [magPass, lastDepth]
  | cons l rest ih =>
    have hl := hu l (List.mem_cons_self _ _)
    have hld := hdeep l (List.mem_cons_self _ _)
    have hTeq : s.thickness + (l.depth - s.slab.depth) = l.depth - d0 := by rw [hT]; ring
    have hTpos : 0 < s.thickness + (l.depth - s.slab.depth) := by rw [hTeq]; linarith
    have havg : ∀ v : ℚ, (v * s.thickness + v * (l.depth - s.slab.depth)) /
        (s.thickness + (l.depth - s.slab.depth)) = v := by
      intro v
      rw [← mul_add]
      exact mul_div_cancel_right₀ v (ne_of_gt hTpos)
    have hdev : ∀ (D v tolc : ℚ), D = 0 → 0 < tolc →
        D + (l.depth - s.slab.depth) *
          |v - (v * s.thickness + v * (l.depth - s.slab.depth)) /
            (s.thickness + (l.depth - s.slab.depth))| <
          tolc * (s.thickness + (l.depth - s.slab.depth)) := by
      intro D v tolc hD0 htolc
      rw [havg, hD0]
      simp
      exact mul_pos htolc hTpos
    have hzero : ∀ (D v : ℚ), D = 0 →
        D + (l.depth - s.slab.depth) *
          |v - (v * s.thickness + v * (l.depth - s.slab.depth)) /
            (s.thickness + (l.depth - s.slab.depth))| = 0 := by
      intro D v hD0
      rw [havg, hD0]
      simp
    rw [magPass]
    simp only [hl.1, hl.2.1, hl.2.2.1, hl.2.2.2, hρ, hμ, hm, hg]
    rw [if_pos ⟨hdev _ ρ _ hD1 h1, hdev _ μ _ hD2 h2, hdev _ m _ hD3 h3, hdev _ g _ hD4 h4⟩]
    rw [ih _ (by simp only; rw [havg]) (by simp only; rw [havg]) (by simp only; rw [havg])
      (by simp only; rw [havg]) hTeq (hzero _ ρ hD1) (hzero _ μ hD2)
      (hzero _ m hD3) (hzero _ g hD4)
      (fun x hx => hu x (List.mem_cons_of_mem _ hx))
      (fun x hx => hdeep x (List.mem_cons_of_mem _ hx))]
    simp [lastDepth]

theorem depthInvariant_deeper (d0 d1 dl : ℚ) (ds : List ℚ)
    (h : DepthInvariant (d0 :: (d1 :: ds) ++ [dl])) :
    ∀ d ∈ ds, d0 < d := by
  obtain ⟨hle, hlt⟩ := h
  have h01 : d0 ≤ d1 := by
    simp only [List.cons_append, List.chain'_cons] at hle
    exact hle.1
  have htail : (d0 :: (d1 :: ds) ++ [dl]).tail.dropLast = d1 :: ds := by
    show ((d1 :: ds) ++ [dl]).dropLast = d1 :: ds
    exact List.dropLast_concat
  rw [htail] at hlt
  have hp : List.Pairwise (fun a b => a < b) (d1 :: ds) := List.chain'_iff_pairwise.mp hlt
  intro d hd
  exact lt_of_le_of_lt h01 (List.rel_of_pairwise_cons hp hd)

/-- C6: for every perfectly uniform profile with interior layers (all layers
share the same density and absorption and, for `contract_mag`, the same moment
and angle) and every tolerance `> 0` (every channel tolerance for
`contract_mag`), each of `contract_by_step`, `contract_by_area` and
`contract_mag` returns the first layer, one interior slab carrying the common
values and reaching to the depth of the last interior layer, and the last
layer: exactly one interior layer.  The two area-based strategies weigh by
thickness and need the interior layers after the first to lie deeper than the
first layer of the profile, which the DepthProfile invariant of section 3
guarantees. -/
theorem uniform_profile_one_interior
    (first i last : Layer) (is : List Layer) (tol ρ μ : ℚ) (htol : 0 < tol)
    (hu : ∀ l ∈ first :: (i :: is) ++ [last], l.density = ρ ∧ l.absorption = μ)
    (mfirst mi mlast : MagLayer) (mis : List MagLayer) (mtol : MagTolerances) (ρm μm m g : ℚ)
    (hmtol : 0 < mtol.density ∧ 0 < mtol.absorption ∧ 0 < mtol.moment ∧ 0 < mtol.angle)
    (hmu : ∀ l ∈ mfirst :: (mi :: mis) ++ [mlast],
      l.density = ρm ∧ l.absorption = μm ∧ l.moment = m ∧ l.angle = g) :
    (contract_by_step (first :: (i :: is) ++ [last]) tol =
        [first, ⟨lastDepth i.depth (is.map Layer.depth), ρ, μ⟩, last] ∧
      interiorCount (contract_by_step (first :: (i :: is) ++ [last]) tol) = 1) ∧
    ((∀ l ∈ is, first.depth < l.depth) →
      contract_by_area (first :: (i :: is) ++ [last]) tol =
        [first, ⟨lastDepth i.depth (is.map Layer.depth), ρ, μ⟩, last] ∧
      interiorCount (contract_by_area (first :: (i :: is) ++ [last]) tol) = 1) ∧
    ((∀ l ∈ mis, mfirst.depth < l.depth) →
      contract_mag (mfirst :: (mi :: mis) ++ [mlast]) mtol =
        [mfirst, ⟨lastDepth mi.depth (mis.map MagLayer.depth), ρm, μm, m, g⟩, mlast] ∧
      interiorCount (contract_mag (mfirst :: (mi :: mis) ++ [mlast]) mtol) = 1) ∧
    (DepthInvariant ((first :: (i :: is) ++ [last]).map Layer.depth) →
      ∀ l ∈ is, first.depth < l.depth) ∧
    (DepthInvariant ((mfirst :: (mi :: mis) ++ [mlast]).map MagLayer.depth) →
      ∀ l ∈ mis, mfirst.depth < l.depth) := by
  have hi : i.density = ρ ∧ i.absorption = μ := hu i (by simp)
  have his : ∀ l ∈ is, l.density = ρ ∧ l.absorption = μ := fun l hl => hu l (by simp [hl])
  have hmi := hmu mi (by simp)
  have hmis : ∀ l ∈ mis, l.density = ρm ∧ l.absorption = μm ∧ l.moment = m ∧ l.angle = g :=
    fun l hl => hmu l (by simp [hl])
  have hstep : contract_by_step (first :: (i :: is) ++ [last]) tol =
      [first, ⟨lastDepth i.depth (is.map Layer.depth), ρ, μ⟩, last] := by
    rw [contract_by_step, contractProfile_shape, stepPass_uniform tol htol ρ μ is i hi.1 hi.2 his]
    rfl
  refine ⟨⟨hstep, by rw [hstep]; rfl⟩, ?_, ?_, ?_, ?_⟩
  · intro hdeep
    have harea : contract_by_area (first :: (i :: is) ++ [last]) tol =
        [first, ⟨lastDepth i.depth (is.map Layer.depth), ρ, μ⟩, last] := by
      rw [contract_by_area, contractProfile_shape,
        areaPass_uniform tol htol ρ μ first.depth is _ hi.1 hi.2 rfl rfl his hdeep]
      rfl
    exact ⟨harea, by rw [harea]; rfl⟩
  · intro hdeep
    have hmag : contract_mag (mfirst :: (mi :: mis) ++ [mlast]) mtol =
        [mfirst, ⟨lastDepth mi.depth (mis.map MagLayer.depth), ρm, μm, m, g⟩, mlast] := by
      rw [contract_mag, contractProfile_shape,
        magPass_uniform mtol hmtol.1 hmtol.2.1 hmtol.2.2.1 hmtol.2.2.2 ρm μm m g mfirst.depth
          mis _ hmi.1 hmi.2.1 hmi.2.2.1 hmi.2.2.2 rfl rfl rfl rfl rfl hmis hdeep]
      rfl
    exact ⟨hmag, by rw [hmag]; rfl⟩
  · intro hd l hl
    have := depthInvariant_deeper first.depth i.depth last.depth (is.map Layer.depth)
      (by simpa using hd)
    exact this l.depth (List.mem_map.mpr ⟨l, hl, rfl⟩)
  · intro hd l hl
    have := depthInvariant_deeper mfirst.depth mi.depth mlast.depth (mis.map MagLayer.depth)
      (by simpa using hd)
    exact this l.depth (List.mem_map.mpr ⟨l, hl, rfl⟩)

/-- Witness for C6: a uniform five-layer profile and a uniform five-layer
magnetic profile whose first and last depths are repeated, tolerance 1/10. -/
theorem uniform_profile_one_interior_witness :
    contract_by_step [⟨0, 2, 0⟩, ⟨0, 2, 0⟩, ⟨1, 2, 0⟩, ⟨3, 2, 0⟩, ⟨3, 2, 0⟩] (1 / 10) =
      [⟨0, 2, 0⟩, ⟨3, 2, 0⟩, ⟨3, 2, 0⟩] ∧
    contract_by_area [⟨0, 2, 0⟩, ⟨0, 2, 0⟩, ⟨1, 2, 0⟩, ⟨3, 2, 0⟩, ⟨3, 2, 0⟩] (1 / 10) =
      [⟨0, 2, 0⟩, ⟨3, 2, 0⟩, ⟨3, 2, 0⟩] ∧
    contract_mag [⟨0, 2, 0, 1, 90⟩, ⟨0, 2, 0, 1, 90⟩, ⟨1, 2, 0, 1, 90⟩, ⟨3, 2, 0, 1, 90⟩,
        ⟨3, 2, 0, 1, 90⟩] ⟨1 / 10, 1 / 10, 1 / 10, 1 / 10⟩ =
      [⟨0, 2, 0, 1, 90⟩, ⟨3, 2, 0, 1, 90⟩, ⟨3, 2, 0, 1, 90⟩] ∧
    DepthInvariant [0, 0, 1, 3, 3] := by
  have h := uniform_profile_one_interior ⟨0, 2, 0⟩ ⟨0, 2, 0⟩ ⟨3, 2, 0⟩ [⟨1, 2, 0⟩, ⟨3, 2, 0⟩]
    (1 / 10) 2 0 (by norm_num) (by simp)
    ⟨0, 2, 0, 1, 90⟩ ⟨0, 2, 0, 1, 90⟩ ⟨3, 2, 0, 1, 90⟩ [⟨1, 2, 0, 1, 90⟩, ⟨3, 2, 0, 1, 90⟩]
    ⟨1 / 10, 1 / 10, 1 / 10, 1 / 10⟩ 2 0 1 90 (by norm_num) (by simp)
  have hd : DepthInvariant [0, 0, 1, 3, 3] := by norm_num [DepthInvariant]
  exact ⟨h.1.1, (h.2.1 (h.2.2.2.1 hd)).1, (h.2.2.1 (h.2.2.2.2 hd)).1, hd⟩

/-! ## ResolutionConvolver -/

end Refl1d.Core

